import Mathlib

/- Shallow embedding of the django-criterion statistical comparison core
   (src/django_criterion/core/timing.py, result_type.py, queries.py,
   core/__init__.py).  Python floats are modelled as real numbers, Python
   exceptions (ZeroDivisionError, KeyError, math domain errors, the
   explicit `raise` branches) as `none` in an `Option` result, and Python
   dicts as association lists / key-indexed partial functions. -/

namespace DjangoCriterion

noncomputable section

/-- Checked division: Python raises ZeroDivisionError when the denominator
is zero, modelled as `none`. -/
def cdiv (x y : ℝ) : Option ℝ :=
  if y = 0 then none else some (x / y)

/-- Checked square root: Python's math.sqrt raises on negative input,
modelled as `none`. -/
def msqrt (x : ℝ) : Option ℝ :=
  if x < 0 then none else some (Real.sqrt x)

/-- Embeds TimingDiff from timing.py. -/
structure TimingDiff where
  average_diff : ℝ
  negligible : Bool

/-- Embeds Timing from timing.py. -/
structure Timing where
  average : ℝ
  stdev : ℝ
  variance : ℝ
  diff : Option TimingDiff

/-- Embeds F_TABLE_ALPHA from timing.py. -/
def F_TABLE_ALPHA : ℝ × ℝ × ℝ × ℝ := (0.01, 0.025, 0.05, 0.1)

/-- Embeds F_TABLE from timing.py: a dict from degrees of freedom to the
row of critical values, modelled as an association list. -/
def F_TABLE : List (ℤ × (ℝ × ℝ × ℝ × ℝ)) :=
  [ (4, (15.977, 9.6045, 6.3882, 4.10725)),
    (5, (10.967, 7.1464, 5.0503, 3.45298)),
    (6, (8.466, 5.8198, 4.2839, 3.05455)),
    (7, (6.993, 4.9949, 3.7870, 2.78493)),
    (8, (6.029, 4.4333, 3.4381, 2.58935)),
    (9, (5.351, 4.0260, 3.1789, 2.44034)),
    (10, (4.849, 3.7168, 2.9782, 2.32260)),
    (12, (4.155, 3.2773, 2.6866, 2.14744)),
    (15, (3.522, 2.8621, 2.4034, 1.97222)),
    (20, (2.938, 2.4645, 2.1242, 1.79384)),
    (24, (2.659, 2.2693, 1.9838, 1.70185)),
    (30, (2.386, 2.074, 1.8409, 1.60648)),
    (40, (2.114, 1.8750, 1.6928, 1.50562)),
    (60, (1.836, 1.667, 1.5343, 1.39520)),
    (120, (1.533, 1.433, 1.3519, 1.26457)) ]

/-- Embeds linear_regression from timing.py; the slope computation divides
by p2.x - p1.x, which raises if the two x coordinates coincide. -/
def linear_regression (p1 p2 : ℝ × ℝ) (x : ℝ) : Option ℝ := do
  let a ← cdiv (p2.2 - p1.2) (p2.1 - p1.1)
  some (a * x + (p1.2 - a * p1.1))

/-- Embeds fcdf from timing.py.  The dict access F_TABLE[freedom] raises
KeyError for a non-tabulated key (`none` here); the for-loop over the three
adjacent column pairs is unrolled, and the final `raise` is `none`. -/
def fcdf (f : ℝ) (freedom : ℤ) : Option ℝ := do
  let table ← F_TABLE.lookup freedom
  if f > table.1 then
    some 0.001
  else if f < table.2.2.2 then
    some 0.2
  else if table.1 ≥ f ∧ f ≥ table.2.1 then
    linear_regression (table.1, F_TABLE_ALPHA.1) (table.2.1, F_TABLE_ALPHA.2.1) f
  else if table.2.1 ≥ f ∧ f ≥ table.2.2.1 then
    linear_regression (table.2.1, F_TABLE_ALPHA.2.1) (table.2.2.1, F_TABLE_ALPHA.2.2.1) f
  else if table.2.2.1 ≥ f ∧ f ≥ table.2.2.2 then
    linear_regression (table.2.2.1, F_TABLE_ALPHA.2.2.1) (table.2.2.2, F_TABLE_ALPHA.2.2.2) f
  else
    none

/-- Embeds INV_T_TABLE_FREEDOM from timing.py. -/
def INV_T_TABLE_FREEDOM : ℝ × ℝ × ℝ × ℝ × ℝ × ℝ := (8, 18, 25, 30, 60, 120)

/-- Embeds INV_T_TABLE from timing.py: a dict keyed by the significance
level (a float in the source, compared by equality). -/
def INV_T_TABLE (a : ℝ) : Option (ℝ × ℝ × ℝ × ℝ × ℝ × ℝ) :=
  if a = 0.005 then some (3.355, 2.878, 2.787, 2.750, 2.660, 2.617)
  else if a = 0.01 then some (2.896, 2.552, 2.485, 2.457, 2.390, 2.358)
  else if a = 0.025 then some (2.306, 2.101, 2.060, 2.042, 2.000, 1.980)
  else if a = 0.05 then some (1.860, 1.734, 1.708, 1.697, 1.671, 1.658)
  else if a = 0.1 then some (1.397, 1.330, 1.316, 1.310, 1.296, 1.289)
  else none

/-- The for-loop of invt from timing.py, unrolled over the five adjacent
pairs of tabulated freedoms; the final `raise` is `none`. -/
def invt_search (table : ℝ × ℝ × ℝ × ℝ × ℝ × ℝ) (freedom : ℝ) : Option ℝ :=
  if INV_T_TABLE_FREEDOM.1 ≤ freedom ∧ freedom ≤ INV_T_TABLE_FREEDOM.2.1 then
    linear_regression (INV_T_TABLE_FREEDOM.1, table.1) (INV_T_TABLE_FREEDOM.2.1, table.2.1) freedom
  else if INV_T_TABLE_FREEDOM.2.1 ≤ freedom ∧ freedom ≤ INV_T_TABLE_FREEDOM.2.2.1 then
    linear_regression (INV_T_TABLE_FREEDOM.2.1, table.2.1) (INV_T_TABLE_FREEDOM.2.2.1, table.2.2.1) freedom
  else if INV_T_TABLE_FREEDOM.2.2.1 ≤ freedom ∧ freedom ≤ INV_T_TABLE_FREEDOM.2.2.2.1 then
    linear_regression (INV_T_TABLE_FREEDOM.2.2.1, table.2.2.1) (INV_T_TABLE_FREEDOM.2.2.2.1, table.2.2.2.1) freedom
  else if INV_T_TABLE_FREEDOM.2.2.2.1 ≤ freedom ∧ freedom ≤ INV_T_TABLE_FREEDOM.2.2.2.2.1 then
    linear_regression (INV_T_TABLE_FREEDOM.2.2.2.1, table.2.2.2.1) (INV_T_TABLE_FREEDOM.2.2.2.2.1, table.2.2.2.2.1) freedom
  else if INV_T_TABLE_FREEDOM.2.2.2.2.1 ≤ freedom ∧ freedom ≤ INV_T_TABLE_FREEDOM.2.2.2.2.2 then
    linear_regression (INV_T_TABLE_FREEDOM.2.2.2.2.1, table.2.2.2.2.1) (INV_T_TABLE_FREEDOM.2.2.2.2.2, table.2.2.2.2.2) freedom
  else
    none

/-- Embeds invt from timing.py: dict lookup of the row for the significance
level, then the bracketing loop over tabulated freedoms. -/
def invt (a : ℝ) (freedom : ℝ) : Option ℝ := do
  let table ← INV_T_TABLE a
  invt_search table freedom

/-- Embeds calc_timing_diff from timing.py.  All the divisions and square
roots of the source are checked, so a ZeroDivisionError or math domain
error anywhere yields `none`, as do failing table lookups. -/
def calc_timing_diff (nw od : Timing) (n : ℤ) (a : ℝ) : Option TimingDiff := do
  let f ← cdiv od.variance nw.variance
  let ap ←
    if f ≥ 1 then do
      let p ← fcdf f (n - 1)
      some (2 * p)
    else do
      let finv ← cdiv 1 f
      let p ← fcdf finv (n - 1)
      some (2 * p)
  if ap ≥ 0.2 then
    let spArg ← cdiv (((n : ℝ) - 1) * od.variance + ((n : ℝ) - 1) * nw.variance) (2 * (n : ℝ) - 2)
    let sp ← msqrt spArg
    let q ← cdiv 2 (n : ℝ)
    let rt ← msqrt q
    let t ← cdiv (od.average - nw.average) (sp * rt)
    let t_value ← invt a ((n : ℝ) * 2 - 2)
    some ⟨nw.average - od.average, !decide (t ≥ t_value ∨ t ≤ -t_value)⟩
  else
    let x ← cdiv od.variance (n : ℝ)
    let y ← cdiv nw.variance (n : ℝ)
    let dx ← cdiv (x ^ 2) ((n : ℝ) - 1)
    let dy ← cdiv (y ^ 2) ((n : ℝ) - 1)
    let v ← cdiv ((x + y) ^ 2) (dx + dy)
    let s ← msqrt (x + y)
    let t ← cdiv (od.average - nw.average) s
    let t_value ← invt (a / 2) v
    some ⟨nw.average - od.average, !decide (t ≥ t_value ∨ t ≤ -t_value)⟩

/-- Embeds ResultType from result_type.py. -/
inductive ResultType
  | REGRESSION
  | IMPROVEMENT
  | MIXED
  | UNCHANGED
  | NO_PREVIOUS_DATA
deriving DecidableEq

/-- Embeds ResultType.PRECEDENCE from result_type.py. -/
def ResultType.PRECEDENCE : List ResultType :=
  [ ResultType.MIXED, ResultType.REGRESSION, ResultType.IMPROVEMENT,
    ResultType.UNCHANGED, ResultType.NO_PREVIOUS_DATA ]

/-- Embeds ResultType.merge from result_type.py; list.index is indexOf. -/
def ResultType.merge (self other : ResultType) : ResultType :=
  if (self = ResultType.REGRESSION ∧ other = ResultType.IMPROVEMENT) ∨
      (self = ResultType.IMPROVEMENT ∧ other = ResultType.REGRESSION) then
    ResultType.MIXED
  else if ResultType.PRECEDENCE.indexOf self ≤ ResultType.PRECEDENCE.indexOf other then
    self
  else
    other

/-- Embeds TimingDiff.result_type from timing.py. -/
def TimingDiff.result_type (d : TimingDiff) : ResultType :=
  if d.negligible then ResultType.UNCHANGED
  else if d.average_diff > 0 then ResultType.REGRESSION
  else ResultType.IMPROVEMENT

/-- Embeds Timing.result_type from timing.py. -/
def Timing.result_type (t : Timing) : ResultType :=
  match t.diff with
  | none => ResultType.NO_PREVIOUS_DATA
  | some d => d.result_type

/-- Embeds Queries from queries.py; a captured query (Dict[str, str]) is an
association list of strings. -/
structure Queries where
  value : ℝ
  captured_queries : List (List (String × String))
  diff : Option ℝ

/-- Embeds Queries.result_type from queries.py. -/
def Queries.result_type (q : Queries) : ResultType :=
  match q.diff with
  | none => ResultType.NO_PREVIOUS_DATA
  | some d =>
    if d = 0 then ResultType.UNCHANGED
    else if d > 0 then ResultType.REGRESSION
    else ResultType.IMPROVEMENT

/-- Embeds BenchmarkResult from core/__init__.py. -/
structure BenchmarkResult where
  queries : Queries
  timing : Timing

/-- Embeds BenchmarkResult.result_type from core/__init__.py. -/
def BenchmarkResult.result_type (r : BenchmarkResult) : ResultType :=
  r.queries.result_type.merge r.timing.result_type

/-- Embeds the body of the inner loop of compare_results from
core/__init__.py for a benchmark present in both runs: attach the queries
delta and the timing diff computed by calc_timing_diff with the default
significance level 0.05. -/
def compare_bench (result result_b : BenchmarkResult) (n : ℤ) : Option BenchmarkResult := do
  let timing_diff ← calc_timing_diff result.timing result_b.timing n 0.05
  some ⟨⟨result.queries.value, result.queries.captured_queries,
          some (result.queries.value - result_b.queries.value)⟩,
        ⟨result.timing.average, result.timing.stdev, result.timing.variance,
          some timing_diff⟩⟩

/-- Embeds the inner for-loop of compare_results from core/__init__.py,
over the benchmarks of one case of the new run. -/
def compare_case (benchmarks_b : List (String × BenchmarkResult)) (n : ℤ) :
    List (String × BenchmarkResult) → Option (List (String × BenchmarkResult))
  | [] => some []
  | (bench_name, result) :: rest => do
    let entry ←
      match benchmarks_b.lookup bench_name with
      | none => some (bench_name, result)
      | some result_b => do
        let r ← compare_bench result result_b n
        some (bench_name, r)
    let tail ← compare_case benchmarks_b n rest
    some (entry :: tail)

/-- Embeds compare_results from core/__init__.py.  The nested dicts are
association lists in insertion order; an exception escaping
calc_timing_diff aborts the whole comparison (`none`). -/
def compare_results (a b : List (String × List (String × BenchmarkResult))) (n : ℤ) :
    Option (List (String × List (String × BenchmarkResult))) :=
  match a with
  | [] => some []
  | (case, benchmarks) :: rest => do
    let entry ←
      match b.lookup case with
      | none => some (case, benchmarks)
      | some benchmarks_b => do
        let cb ← compare_case benchmarks_b n benchmarks
        some (case, cb)
    let tail ← compare_results rest b n
    some (entry :: tail)

/-- Persisted form of a Timing as produced by dataclasses.asdict in
write_output: the same fields, field by field. -/
structure TimingDict where
  average : ℝ
  stdev : ℝ
  variance : ℝ
  diff : Option TimingDiff

/-- Persisted form of a Queries as produced by dataclasses.asdict. -/
structure QueriesDict where
  value : ℝ
  captured_queries : List (List (String × String))
  diff : Option ℝ

/-- Persisted form of a BenchmarkResult as produced by dataclasses.asdict. -/
structure BenchmarkDict where
  queries : QueriesDict
  timing : TimingDict

/-- Embeds dataclasses.asdict on a Timing. -/
def Timing.asdict (t : Timing) : TimingDict :=
  ⟨t.average, t.stdev, t.variance, t.diff⟩

/-- Embeds Timing.from_dict from timing.py. -/
def Timing.from_dict (d : TimingDict) : Timing :=
  ⟨d.average, d.stdev, d.variance, none⟩

/-- Embeds dataclasses.asdict on a Queries. -/
def Queries.asdict (q : Queries) : QueriesDict :=
  ⟨q.value, q.captured_queries, q.diff⟩

/-- Embeds Queries.from_dict from queries.py: only the value is read, the
diff is reset to None and the captured queries to the empty list. -/
def Queries.from_dict (d : QueriesDict) : Queries :=
  ⟨d.value, [], none⟩

/-- Embeds dataclasses.asdict on a BenchmarkResult. -/
def BenchmarkResult.asdict (r : BenchmarkResult) : BenchmarkDict :=
  ⟨r.queries.asdict, r.timing.asdict⟩

/-- Embeds BenchmarkResult.from_dict from core/__init__.py. -/
def BenchmarkResult.from_dict (d : BenchmarkDict) : BenchmarkResult :=
  ⟨Queries.from_dict d.queries, Timing.from_dict d.timing⟩

/-- Embeds write_output from core/__init__.py at the level of the nested
record structure: json.dump of the nested dicts of dataclasses.asdict
values is structure-preserving, so the persisted form is modelled as the
nested association lists of asdict records themselves. -/
def write_output (data : List (String × List (String × BenchmarkResult))) :
    List (String × List (String × BenchmarkDict)) :=
  data.map fun p => (p.1, p.2.map fun q => (q.1, q.2.asdict))

/-- Embeds load_results from core/__init__.py at the same level:
BenchmarkResult.from_dict applied to every loaded record. -/
def load_results (results : List (String × List (String × BenchmarkDict))) :
    List (String × List (String × BenchmarkResult)) :=
  results.map fun p => (p.1, p.2.map fun q => (q.1, BenchmarkResult.from_dict q.2))

end

/-- Precedence rank of a verdict as the claims state it: MIXED before
REGRESSION before IMPROVEMENT before UNCHANGED before NO_PREVIOUS_DATA. -/
def verdictRank : ResultType → ℕ
  | ResultType.MIXED => 0
  | ResultType.REGRESSION => 1
  | ResultType.IMPROVEMENT => 2
  | ResultType.UNCHANGED => 3
  | ResultType.NO_PREVIOUS_DATA => 4

section Helpers

lemma cdiv_of_ne {x y : ℝ} (h : y ≠ 0) : cdiv x y = some (x / y) := by
  simp [cdiv, h]

lemma cdiv_zero (x : ℝ) : cdiv x 0 = none := by
  simp [cdiv]

lemma cdiv_eq_some {x y z : ℝ} : cdiv x y = some z ↔ y ≠ 0 ∧ x / y = z := by
  unfold cdiv
  split <;> simp_all

lemma msqrt_of_nonneg {x : ℝ} (h : 0 ≤ x) : msqrt x = some (Real.sqrt x) := by
  simp [msqrt, not_lt.mpr h]

lemma msqrt_eq_some {x z : ℝ} : msqrt x = some z ↔ 0 ≤ x ∧ Real.sqrt x = z := by
  unfold msqrt
  split <;> simp_all

lemma lr_left {x1 y1 x2 y2 : ℝ} (h : x1 ≠ x2) :
    linear_regression (x1, y1) (x2, y2) x1 = some y1 := by
  have hx : x2 - x1 ≠ 0 := sub_ne_zero.mpr (Ne.symm h)
  simp only [linear_regression, cdiv, hx, ite_false, Option.bind_eq_bind,
    Option.some_bind, Option.some.injEq, if_neg]
  ring

lemma lr_right {x1 y1 x2 y2 : ℝ} (h : x1 ≠ x2) :
    linear_regression (x1, y1) (x2, y2) x2 = some y2 := by
  have hx : x2 - x1 ≠ 0 := sub_ne_zero.mpr (Ne.symm h)
  simp only [linear_regression, cdiv, hx, ite_false, Option.bind_eq_bind,
    Option.some_bind, Option.some.injEq, if_neg]
  field_simp
  ring

lemma lr_pos {x1 y1 x2 y2 fr t : ℝ} (hx : x1 < x2) (hy2 : 0 < y2) (hy : y2 ≤ y1)
    (h1 : x1 ≤ fr) (h2 : fr ≤ x2)
    (h : linear_regression (x1, y1) (x2, y2) fr = some t) : 0 < t := by
  have hx0 : x2 - x1 ≠ 0 := sub_ne_zero.mpr (ne_of_gt hx)
  simp only [linear_regression, cdiv, hx0, ite_false, Option.bind_eq_bind,
    Option.some_bind, Option.some.injEq, if_neg] at h
  have key : (y2 - y1) / (x2 - x1) * (x2 - x1) = y2 - y1 := div_mul_cancel₀ _ hx0
  have haneg : (y2 - y1) / (x2 - x1) ≤ 0 := by
    rcases le_or_lt ((y2 - y1) / (x2 - x1)) 0 with h' | h'
    · exact h'
    · nlinarith
  nlinarith [mul_le_mul_of_nonpos_left (sub_le_sub_right h2 x1) haneg]

/-- Every row of the F table is strictly decreasing, its loosest entry
exceeds 1, and its key is at least 4. -/
lemma ftable_row_facts {k : ℤ} {tbl : ℝ × ℝ × ℝ × ℝ}
    (h : F_TABLE.lookup k = some tbl) :
    tbl.2.2.2 < tbl.2.2.1 ∧ tbl.2.2.1 < tbl.2.1 ∧ tbl.2.1 < tbl.1 ∧
      1 < tbl.2.2.2 ∧ 4 ≤ k := by
  simp only [F_TABLE, List.lookup] at h
  repeat' split at h
  all_goals simp_all [beq_iff_eq]
  all_goals subst h
  all_goals norm_num

lemma fcdf_eq_of_lookup {k : ℤ} {tbl : ℝ × ℝ × ℝ × ℝ}
    (h : F_TABLE.lookup k = some tbl) (f : ℝ) :
    fcdf f k =
      if f > tbl.1 then some 0.001
      else if f < tbl.2.2.2 then some 0.2
      else if tbl.1 ≥ f ∧ f ≥ tbl.2.1 then
        linear_regression (tbl.1, 0.01) (tbl.2.1, 0.025) f
      else if tbl.2.1 ≥ f ∧ f ≥ tbl.2.2.1 then
        linear_regression (tbl.2.1, 0.025) (tbl.2.2.1, 0.05) f
      else if tbl.2.2.1 ≥ f ∧ f ≥ tbl.2.2.2 then
        linear_regression (tbl.2.2.1, 0.05) (tbl.2.2.2, 0.1) f
      else none := by
  simp [fcdf, h, F_TABLE_ALPHA]

lemma fcdf_low {k : ℤ} {tbl : ℝ × ℝ × ℝ × ℝ} {f : ℝ}
    (h : F_TABLE.lookup k = some tbl) (hf : f < tbl.2.2.2) : fcdf f k = some 0.2 := by
  obtain ⟨h32, h21, h10, h1, -⟩ := ftable_row_facts h
  rw [fcdf_eq_of_lookup h, if_neg (by simp only [not_lt]; linarith), if_pos hf]

lemma fcdf_high {k : ℤ} {tbl : ℝ × ℝ × ℝ × ℝ} {f : ℝ}
    (h : F_TABLE.lookup k = some tbl) (hf : tbl.1 < f) : fcdf f k = some 0.001 := by
  rw [fcdf_eq_of_lookup h, if_pos hf]

lemma fcdf_at_first {k : ℤ} {tbl : ℝ × ℝ × ℝ × ℝ}
    (h : F_TABLE.lookup k = some tbl) : fcdf tbl.1 k = some 0.01 := by
  obtain ⟨h32, h21, h10, h1, -⟩ := ftable_row_facts h
  rw [fcdf_eq_of_lookup h, if_neg (lt_irrefl tbl.1),
    if_neg (by simp only [not_lt]; linarith),
    if_pos ⟨le_refl tbl.1, le_of_lt h10⟩, lr_left (ne_of_gt h10)]

lemma fcdf_at_second {k : ℤ} {tbl : ℝ × ℝ × ℝ × ℝ}
    (h : F_TABLE.lookup k = some tbl) : fcdf tbl.2.1 k = some 0.025 := by
  obtain ⟨h32, h21, h10, h1, -⟩ := ftable_row_facts h
  rw [fcdf_eq_of_lookup h, if_neg (by simp only [not_lt]; linarith),
    if_neg (by simp only [not_lt]; linarith),
    if_pos ⟨le_of_lt h10, le_refl tbl.2.1⟩, lr_right (ne_of_gt h10)]

lemma fcdf_at_third {k : ℤ} {tbl : ℝ × ℝ × ℝ × ℝ}
    (h : F_TABLE.lookup k = some tbl) : fcdf tbl.2.2.1 k = some 0.05 := by
  obtain ⟨h32, h21, h10, h1, -⟩ := ftable_row_facts h
  rw [fcdf_eq_of_lookup h, if_neg (by simp only [not_lt]; linarith),
    if_neg (by simp only [not_lt]; linarith),
    if_neg (by simp only [not_and, not_le]; intro; linarith),
    if_pos ⟨le_of_lt h21, le_refl tbl.2.2.1⟩, lr_right (ne_of_gt h21)]

lemma fcdf_at_fourth {k : ℤ} {tbl : ℝ × ℝ × ℝ × ℝ}
    (h : F_TABLE.lookup k = some tbl) : fcdf tbl.2.2.2 k = some 0.1 := by
  obtain ⟨h32, h21, h10, h1, -⟩ := ftable_row_facts h
  rw [fcdf_eq_of_lookup h, if_neg (by simp only [not_lt]; linarith),
    if_neg (lt_irrefl tbl.2.2.2),
    if_neg (by simp only [not_and, not_le]; intro; linarith),
    if_neg (by simp only [not_and, not_le]; intro; linarith),
    if_pos ⟨le_of_lt h32, le_refl tbl.2.2.2⟩, lr_right (ne_of_gt h32)]

lemma invt_search_pos {y1 y2 y3 y4 y5 y6 fr t : ℝ}
    (p6 : 0 < y6) (p65 : y6 ≤ y5) (p54 : y5 ≤ y4) (p43 : y4 ≤ y3)
    (p32 : y3 ≤ y2) (p21 : y2 ≤ y1)
    (h : invt_search (y1, y2, y3, y4, y5, y6) fr = some t) : 0 < t := by
  have p5 : 0 < y5 := lt_of_lt_of_le p6 p65
  have p4 : 0 < y4 := lt_of_lt_of_le p5 p54
  have p3 : 0 < y3 := lt_of_lt_of_le p4 p43
  have p2 : 0 < y2 := lt_of_lt_of_le p3 p32
  simp only [invt_search, INV_T_TABLE_FREEDOM] at h
  split at h
  next hc => exact lr_pos (by norm_num) p2 p21 hc.1 hc.2 h
  next =>
    split at h
    next hc => exact lr_pos (by norm_num) p3 p32 hc.1 hc.2 h
    next =>
      split at h
      next hc => exact lr_pos (by norm_num) p4 p43 hc.1 hc.2 h
      next =>
        split at h
        next hc => exact lr_pos (by norm_num) p5 p54 hc.1 hc.2 h
        next =>
          split at h
          next hc => exact lr_pos (by norm_num) p6 p65 hc.1 hc.2 h
          next => exact absurd h (by simp)

/-- Every critical value the inverse-t lookup can return is positive. -/
lemma invt_pos {a fr t : ℝ} (h : invt a fr = some t) : 0 < t := by
  unfold invt at h
  cases hl : INV_T_TABLE a with
  | none => rw [hl] at h; exact absurd h (by simp)
  | some tbl =>
    rw [hl] at h
    simp only [Option.bind_eq_bind, Option.some_bind] at h
    unfold INV_T_TABLE at hl
    repeat' split at hl
    all_goals first
      | (rw [Option.some.injEq] at hl; subst hl;
         exact invt_search_pos (by norm_num) (by norm_num) (by norm_num)
           (by norm_num) (by norm_num) (by norm_num) h)
      | exact absurd hl (by simp)

end Helpers

/-- C5: for all pairs of timing samples with identical average and
identical variance, whenever calc_timing_diff returns a TimingDiff at all
it returns negligible = true. -/
theorem equal_samples_negligible (nw od : Timing) (n : ℤ) (a : ℝ) (d : TimingDiff)
    (h1 : nw.average = od.average) (h2 : nw.variance = od.variance)
    (h : calc_timing_diff nw od n a = some d) : d.negligible = true := by
  by_cases hnv : nw.variance = 0
  · simp [calc_timing_diff, cdiv, hnv] at h
  · have hf : cdiv od.variance nw.variance = some 1 := by
      rw [cdiv_of_ne hnv, ← h2, div_self hnv]
    unfold calc_timing_diff at h
    rw [hf] at h
    simp only [Option.bind_eq_bind, Option.some_bind] at h
    rw [if_pos (le_refl (1 : ℝ))] at h
    cases hlk : F_TABLE.lookup (n - 1) with
    | none =>
      rw [show fcdf 1 (n - 1) = none by simp [fcdf, hlk]] at h
      simp at h
    | some tbl =>
      have h02 : fcdf 1 (n - 1) = some 0.2 := by
        obtain ⟨-, -, -, hgt1, -⟩ := ftable_row_facts hlk
        exact fcdf_low hlk hgt1
      rw [h02] at h
      simp only [Option.bind_eq_bind, Option.some_bind] at h
      rw [if_pos (by norm_num : (2 : ℝ) * 0.2 ≥ 0.2)] at h
      cases hsp : cdiv (((n : ℝ) - 1) * od.variance + ((n : ℝ) - 1) * nw.variance)
          (2 * (n : ℝ) - 2) with
      | none => rw [hsp] at h; simp at h
      | some spArg =>
        rw [hsp] at h
        simp only [Option.bind_eq_bind, Option.some_bind] at h
        cases hs1 : msqrt spArg with
        | none => rw [hs1] at h; simp at h
        | some sp =>
          rw [hs1] at h
          simp only [Option.bind_eq_bind, Option.some_bind] at h
          cases hq : cdiv 2 (n : ℝ) with
          | none => rw [hq] at h; simp at h
          | some q =>
            rw [hq] at h
            simp only [Option.bind_eq_bind, Option.some_bind] at h
            cases hrt : msqrt q with
            | none => rw [hrt] at h; simp at h
            | some rt =>
              rw [hrt] at h
              simp only [Option.bind_eq_bind, Option.some_bind] at h
              have hnum : od.average - nw.average = 0 := by rw [h1, sub_self]
              rw [hnum] at h
              cases ht : cdiv 0 (sp * rt) with
              | none => rw [ht] at h; simp at h
              | some t =>
                rw [ht] at h
                simp only [Option.bind_eq_bind, Option.some_bind] at h
                obtain ⟨hden, ht0⟩ := cdiv_eq_some.mp ht
                rw [zero_div] at ht0
                cases hI : invt a ((n : ℝ) * 2 - 2) with
                | none => rw [hI] at h; simp at h
                | some tv =>
                  rw [hI] at h
                  simp only [Option.bind_eq_bind, Option.some_bind,
                    Option.some.injEq] at h
                  have htv : 0 < tv := invt_pos hI
                  subst ht0
                  subst h
                  have hnr : ¬((0 : ℝ) ≥ tv ∨ (0 : ℝ) ≤ -tv) := by
                    push_neg
                    exact ⟨htv, by linarith⟩
                  show (!decide ((0 : ℝ) ≥ tv ∨ (0 : ℝ) ≤ -tv)) = true
                  rw [decide_eq_false hnr]
                  rfl

section Helpers

/- Concrete evaluation of calc_timing_diff on two identical samples of
average 1 and variance 0.01 at the default sample size and level. -/
set_option maxHeartbeats 1000000 in
lemma calc_eval_equal :
    calc_timing_diff ⟨1, 0.1, 0.01, none⟩ ⟨1, 0.1, 0.01, none⟩ 61 0.05 = some ⟨0, true⟩ := by
  have hlk : F_TABLE.lookup (60 : ℤ) = some (1.836, 1.667, 1.5343, 1.39520) := by rfl
  norm_num [calc_timing_diff, cdiv, msqrt, fcdf, hlk, F_TABLE_ALPHA,
    linear_regression, invt, INV_T_TABLE, invt_search, INV_T_TABLE_FREEDOM,
    Option.bind_eq_bind, Real.sqrt_eq_zero', mul_eq_zero,
    Bool.not_eq_true', decide_eq_false_iff_not]

end Helpers

section Helpers

lemma fcdf_some_lookup {f : ℝ} {k : ℤ} {p : ℝ} (h : fcdf f k = some p) :
    ∃ tbl, F_TABLE.lookup k = some tbl := by
  unfold fcdf at h
  cases hlk : F_TABLE.lookup k with
  | none => rw [hlk] at h; exact absurd h (by simp)
  | some tbl => exact ⟨tbl, rfl⟩

end Helpers

/-- C1: with positive variances and defined table lookups,
calc_timing_diff selects the equal-variance branch exactly when the
doubled F-table proxy ap = 2 * p is at least 0.2, computing
t = (old.average - new.average) / (sp * sqrt(2/n)) with the pooled
standard deviation sp and the critical value invt(a, 2n-2); otherwise it
selects the Welch branch, computing
t = (old.average - new.average) / sqrt(old.variance/n + new.variance/n)
with the Welch-Satterthwaite freedom v and critical value invt(a/2, v);
in both cases it returns average_diff = new.average - old.average with
negligible true iff neither t >= t_critical nor t <= -t_critical. -/
theorem calc_timing_diff_branches (nw od : Timing) (n : ℤ) (a p tcp tcw : ℝ)
    (hnv : 0 < nw.variance) (hov : 0 < od.variance)
    (hp : fcdf (if od.variance / nw.variance ≥ 1 then od.variance / nw.variance
                else 1 / (od.variance / nw.variance)) (n - 1) = some p)
    (htcp : invt a ((n : ℝ) * 2 - 2) = some tcp)
    (htcw : invt (a / 2)
        ((od.variance / (n : ℝ) + nw.variance / (n : ℝ)) ^ 2 /
          ((od.variance / (n : ℝ)) ^ 2 / ((n : ℝ) - 1) +
            (nw.variance / (n : ℝ)) ^ 2 / ((n : ℝ) - 1))) = some tcw) :
    calc_timing_diff nw od n a =
      some ⟨nw.average - od.average,
        if 2 * p ≥ 0.2 then
          !decide ((od.average - nw.average) /
              (Real.sqrt ((((n : ℝ) - 1) * od.variance + ((n : ℝ) - 1) * nw.variance) /
                  (2 * (n : ℝ) - 2)) * Real.sqrt (2 / (n : ℝ))) ≥ tcp ∨
            (od.average - nw.average) /
              (Real.sqrt ((((n : ℝ) - 1) * od.variance + ((n : ℝ) - 1) * nw.variance) /
                  (2 * (n : ℝ) - 2)) * Real.sqrt (2 / (n : ℝ))) ≤ -tcp)
        else
          !decide ((od.average - nw.average) /
              Real.sqrt (od.variance / (n : ℝ) + nw.variance / (n : ℝ)) ≥ tcw ∨
            (od.average - nw.average) /
              Real.sqrt (od.variance / (n : ℝ) + nw.variance / (n : ℝ)) ≤ -tcw)⟩ := by
  have hn5 : (5 : ℤ) ≤ n := by
    obtain ⟨tbl, hlk⟩ := fcdf_some_lookup hp
    have h4 := (ftable_row_facts hlk).2.2.2.2
    omega
  have hnR : (5 : ℝ) ≤ (n : ℝ) := by exact_mod_cast hn5
  have hn0 : ((n : ℝ)) ≠ 0 := by linarith
  have hn1 : (0 : ℝ) < (n : ℝ) - 1 := by linarith
  have hnpos : (0 : ℝ) < (n : ℝ) := by linarith
  have h2n2 : (0 : ℝ) < 2 * (n : ℝ) - 2 := by linarith
  have hfpos : 0 < od.variance / nw.variance := div_pos hov hnv
  unfold calc_timing_diff
  rw [cdiv_of_ne (ne_of_gt hnv)]
  simp only [Option.bind_eq_bind, Option.some_bind]
  by_cases hge : od.variance / nw.variance ≥ 1
  · rw [if_pos hge] at hp
    rw [if_pos hge, hp]
    simp only [Option.bind_eq_bind, Option.some_bind]
    by_cases hap : 2 * p ≥ 0.2
    · simp only [hap, ite_true]
      rw [cdiv_of_ne (ne_of_gt h2n2)]
      simp only [Option.bind_eq_bind, Option.some_bind]
      rw [msqrt_of_nonneg (by positivity)]
      simp only [Option.bind_eq_bind, Option.some_bind]
      rw [cdiv_of_ne hn0]
      simp only [Option.bind_eq_bind, Option.some_bind]
      rw [msqrt_of_nonneg (by positivity)]
      simp only [Option.bind_eq_bind, Option.some_bind]
      rw [cdiv_of_ne (mul_ne_zero
        (Real.sqrt_ne_zero'.mpr (div_pos (by positivity) h2n2))
        (Real.sqrt_ne_zero'.mpr (by positivity)))]
      simp only [Option.bind_eq_bind, Option.some_bind]
      rw [htcp]
      simp only [Option.bind_eq_bind, Option.some_bind]
    · simp only [hap, ite_false]
      rw [cdiv_of_ne hn0]
      simp only [Option.bind_eq_bind, Option.some_bind]
      rw [cdiv_of_ne hn0]
      simp only [Option.bind_eq_bind, Option.some_bind]
      rw [cdiv_of_ne (ne_of_gt hn1)]
      simp only [Option.bind_eq_bind, Option.some_bind]
      rw [cdiv_of_ne (ne_of_gt hn1)]
      simp only [Option.bind_eq_bind, Option.some_bind]
      rw [cdiv_of_ne (ne_of_gt (by positivity :
        (0 : ℝ) < (od.variance / (n : ℝ)) ^ 2 / ((n : ℝ) - 1) +
          (nw.variance / (n : ℝ)) ^ 2 / ((n : ℝ) - 1)))]
      simp only [Option.bind_eq_bind, Option.some_bind]
      rw [msqrt_of_nonneg (by positivity)]
      simp only [Option.bind_eq_bind, Option.some_bind]
      rw [cdiv_of_ne (Real.sqrt_ne_zero'.mpr (by positivity))]
      simp only [Option.bind_eq_bind, Option.some_bind]
      rw [htcw]
      simp only [Option.bind_eq_bind, Option.some_bind]
  · rw [if_neg hge] at hp
    rw [if_neg hge, cdiv_of_ne (ne_of_gt hfpos)]
    simp only [Option.bind_eq_bind, Option.some_bind]
    rw [hp]
    simp only [Option.bind_eq_bind, Option.some_bind]
    by_cases hap : 2 * p ≥ 0.2
    · simp only [hap, ite_true]
      rw [cdiv_of_ne (ne_of_gt h2n2)]
      simp only [Option.bind_eq_bind, Option.some_bind]
      rw [msqrt_of_nonneg (by positivity)]
      simp only [Option.bind_eq_bind, Option.some_bind]
      rw [cdiv_of_ne hn0]
      simp only [Option.bind_eq_bind, Option.some_bind]
      rw [msqrt_of_nonneg (by positivity)]
      simp only [Option.bind_eq_bind, Option.some_bind]
      rw [cdiv_of_ne (mul_ne_zero
        (Real.sqrt_ne_zero'.mpr (div_pos (by positivity) h2n2))
        (Real.sqrt_ne_zero'.mpr (by positivity)))]
      simp only [Option.bind_eq_bind, Option.some_bind]
      rw [htcp]
      simp only [Option.bind_eq_bind, Option.some_bind]
    · simp only [hap, ite_false]
      rw [cdiv_of_ne hn0]
      simp only [Option.bind_eq_bind, Option.some_bind]
      rw [cdiv_of_ne hn0]
      simp only [Option.bind_eq_bind, Option.some_bind]
      rw [cdiv_of_ne (ne_of_gt hn1)]
      simp only [Option.bind_eq_bind, Option.some_bind]
      rw [cdiv_of_ne (ne_of_gt hn1)]
      simp only [Option.bind_eq_bind, Option.some_bind]
      rw [cdiv_of_ne (ne_of_gt (by positivity :
        (0 : ℝ) < (od.variance / (n : ℝ)) ^ 2 / ((n : ℝ) - 1) +
          (nw.variance / (n : ℝ)) ^ 2 / ((n : ℝ) - 1)))]
      simp only [Option.bind_eq_bind, Option.some_bind]
      rw [msqrt_of_nonneg (by positivity)]
      simp only [Option.bind_eq_bind, Option.some_bind]
      rw [cdiv_of_ne (Real.sqrt_ne_zero'.mpr (by positivity))]
      simp only [Option.bind_eq_bind, Option.some_bind]
      rw [htcw]
      simp only [Option.bind_eq_bind, Option.some_bind]

theorem calc_timing_diff_branches_witness :
    (0 : ℝ) < 0.01 ∧
    fcdf (if (0.01 : ℝ) / 0.01 ≥ 1 then (0.01 : ℝ) / 0.01 else 1 / ((0.01 : ℝ) / 0.01))
        (61 - 1) = some 0.2 ∧
    invt 0.05 (((61 : ℤ) : ℝ) * 2 - 2) = some 1.658 ∧
    invt (0.05 / 2)
        ((0.01 / ((61 : ℤ) : ℝ) + 0.01 / ((61 : ℤ) : ℝ)) ^ 2 /
          ((0.01 / ((61 : ℤ) : ℝ)) ^ 2 / (((61 : ℤ) : ℝ) - 1) +
            (0.01 / ((61 : ℤ) : ℝ)) ^ 2 / (((61 : ℤ) : ℝ) - 1))) = some 1.98 ∧
    calc_timing_diff ⟨1, 0.1, 0.01, none⟩ ⟨1, 0.1, 0.01, none⟩ 61 0.05 =
      some ⟨(1 : ℝ) - 1,
        if 2 * (0.2 : ℝ) ≥ 0.2 then
          !decide ((1 - 1 : ℝ) /
              (Real.sqrt (((((61 : ℤ) : ℝ) - 1) * 0.01 + (((61 : ℤ) : ℝ) - 1) * 0.01) /
                  (2 * ((61 : ℤ) : ℝ) - 2)) *
                Real.sqrt (2 / ((61 : ℤ) : ℝ))) ≥ 1.658 ∨
            (1 - 1 : ℝ) /
              (Real.sqrt (((((61 : ℤ) : ℝ) - 1) * 0.01 + (((61 : ℤ) : ℝ) - 1) * 0.01) /
                  (2 * ((61 : ℤ) : ℝ) - 2)) *
                Real.sqrt (2 / ((61 : ℤ) : ℝ))) ≤ -1.658)
        else
          !decide ((1 - 1 : ℝ) /
              Real.sqrt (0.01 / ((61 : ℤ) : ℝ) + 0.01 / ((61 : ℤ) : ℝ)) ≥ 1.98 ∨
            (1 - 1 : ℝ) /
              Real.sqrt (0.01 / ((61 : ℤ) : ℝ) + 0.01 / ((61 : ℤ) : ℝ)) ≤ -1.98)⟩ := by
  have h1 : (0 : ℝ) < 0.01 := by norm_num
  have hlk : F_TABLE.lookup (60 : ℤ) = some (1.836, 1.667, 1.5343, 1.39520) := by rfl
  have hp : fcdf (if (0.01 : ℝ) / 0.01 ≥ 1 then (0.01 : ℝ) / 0.01
      else 1 / ((0.01 : ℝ) / 0.01)) (61 - 1) = some 0.2 := by
    norm_num [fcdf, hlk, F_TABLE_ALPHA, linear_regression, cdiv, Option.bind_eq_bind]
  have htcp : invt 0.05 (((61 : ℤ) : ℝ) * 2 - 2) = some 1.658 := by
    norm_num [invt, INV_T_TABLE, invt_search, INV_T_TABLE_FREEDOM, linear_regression,
      cdiv, Option.bind_eq_bind]
  have htcw : invt (0.05 / 2)
      ((0.01 / ((61 : ℤ) : ℝ) + 0.01 / ((61 : ℤ) : ℝ)) ^ 2 /
        ((0.01 / ((61 : ℤ) : ℝ)) ^ 2 / (((61 : ℤ) : ℝ) - 1) +
          (0.01 / ((61 : ℤ) : ℝ)) ^ 2 / (((61 : ℤ) : ℝ) - 1))) = some 1.98 := by
    have harg : (0.01 / ((61 : ℤ) : ℝ) + 0.01 / ((61 : ℤ) : ℝ)) ^ 2 /
        ((0.01 / ((61 : ℤ) : ℝ)) ^ 2 / (((61 : ℤ) : ℝ) - 1) +
          (0.01 / ((61 : ℤ) : ℝ)) ^ 2 / (((61 : ℤ) : ℝ) - 1)) = 120 := by
      norm_num
    rw [harg]
    norm_num [invt, INV_T_TABLE, invt_search, INV_T_TABLE_FREEDOM, linear_regression,
      cdiv, Option.bind_eq_bind]
  exact ⟨h1, hp, htcp, htcw,
    calc_timing_diff_branches ⟨1, 0.1, 0.01, none⟩ ⟨1, 0.1, 0.01, none⟩ 61 0.05
      0.2 1.658 1.98 h1 h1 hp htcp htcw⟩

section Helpers

lemma invt_search_some_of_bounds (tbl : ℝ × ℝ × ℝ × ℝ × ℝ × ℝ) (fr : ℝ)
    (h1 : 60 ≤ fr) (h2 : fr ≤ 120) : (invt_search tbl fr).isSome = true := by
  simp only [invt_search, INV_T_TABLE_FREEDOM]
  have h18 : ¬((8 : ℝ) ≤ fr ∧ fr ≤ 18) := by rintro ⟨-, hh⟩; linarith
  have h25 : ¬((18 : ℝ) ≤ fr ∧ fr ≤ 25) := by rintro ⟨-, hh⟩; linarith
  have h30 : ¬((25 : ℝ) ≤ fr ∧ fr ≤ 30) := by rintro ⟨-, hh⟩; linarith
  rw [if_neg h18, if_neg h25, if_neg h30]
  by_cases hc : fr ≤ 60
  · rw [if_pos ⟨by linarith, hc⟩]
    norm_num [linear_regression, cdiv, Option.bind_eq_bind]
  · rw [if_neg (by rintro ⟨-, hh⟩; exact hc hh), if_pos ⟨by linarith, h2⟩]
    norm_num [linear_regression, cdiv, Option.bind_eq_bind]

end Helpers

/-- C10: at the default sample size 61 and level 0.05, with both
variances positive, the Welch-Satterthwaite freedom v lies between
n - 1 = 60 and 2n - 2 = 120, the pooled branch looks up freedom 120, and
both inverse-t lookups find a bracketing pair of tabulated freedoms, so
the failure branch of invt is unreachable. -/
theorem invt_lookup_total_default (nw od : Timing)
    (hnv : 0 < nw.variance) (hov : 0 < od.variance) :
    (60 ≤ (od.variance / 61 + nw.variance / 61) ^ 2 /
        ((od.variance / 61) ^ 2 / (61 - 1) + (nw.variance / 61) ^ 2 / (61 - 1)) ∧
      (od.variance / 61 + nw.variance / 61) ^ 2 /
        ((od.variance / 61) ^ 2 / (61 - 1) + (nw.variance / 61) ^ 2 / (61 - 1)) ≤ 120) ∧
    (invt (0.05 / 2) ((od.variance / 61 + nw.variance / 61) ^ 2 /
        ((od.variance / 61) ^ 2 / (61 - 1) +
          (nw.variance / 61) ^ 2 / (61 - 1)))).isSome = true ∧
    (invt 0.05 ((61 : ℝ) * 2 - 2)).isSome = true := by
  have key : ∀ x y : ℝ, 0 < x → 0 < y →
      60 ≤ (x + y) ^ 2 / (x ^ 2 / (61 - 1) + y ^ 2 / (61 - 1)) ∧
        (x + y) ^ 2 / (x ^ 2 / (61 - 1) + y ^ 2 / (61 - 1)) ≤ 120 := by
    intro x y hx hy
    have hd : (0 : ℝ) < x ^ 2 / (61 - 1) + y ^ 2 / (61 - 1) := by positivity
    constructor
    · rw [le_div_iff hd]
      nlinarith [mul_pos hx hy]
    · rw [div_le_iff hd]
      nlinarith [sq_nonneg (x - y)]
  have hx : 0 < od.variance / (61 : ℝ) := by positivity
  have hy : 0 < nw.variance / (61 : ℝ) := by positivity
  have hb := key (od.variance / 61) (nw.variance / 61) hx hy
  refine ⟨hb, ?_, ?_⟩
  · have hrow : INV_T_TABLE (0.05 / 2) =
        some (2.306, 2.101, 2.060, 2.042, 2.000, 1.980) := by
      norm_num [INV_T_TABLE]
    unfold invt
    rw [hrow]
    simp only [Option.bind_eq_bind, Option.some_bind]
    exact invt_search_some_of_bounds _ _ hb.1 hb.2
  · have hrow : INV_T_TABLE 0.05 =
        some (1.860, 1.734, 1.708, 1.697, 1.671, 1.658) := by
      norm_num [INV_T_TABLE]
    unfold invt
    rw [hrow]
    simp only [Option.bind_eq_bind, Option.some_bind]
    exact invt_search_some_of_bounds _ _ (by norm_num) (by norm_num)

theorem invt_lookup_total_default_witness :
    (0 : ℝ) < (⟨1, 0.1, 0.01, none⟩ : Timing).variance ∧
    (0 : ℝ) < (⟨1, 0.15, 0.02, none⟩ : Timing).variance ∧
    ((60 ≤ ((⟨1, 0.15, 0.02, none⟩ : Timing).variance / 61 +
          (⟨1, 0.1, 0.01, none⟩ : Timing).variance / 61) ^ 2 /
          (((⟨1, 0.15, 0.02, none⟩ : Timing).variance / 61) ^ 2 / (61 - 1) +
            ((⟨1, 0.1, 0.01, none⟩ : Timing).variance / 61) ^ 2 / (61 - 1)) ∧
        ((⟨1, 0.15, 0.02, none⟩ : Timing).variance / 61 +
          (⟨1, 0.1, 0.01, none⟩ : Timing).variance / 61) ^ 2 /
          (((⟨1, 0.15, 0.02, none⟩ : Timing).variance / 61) ^ 2 / (61 - 1) +
            ((⟨1, 0.1, 0.01, none⟩ : Timing).variance / 61) ^ 2 / (61 - 1)) ≤ 120) ∧
      (invt (0.05 / 2) (((⟨1, 0.15, 0.02, none⟩ : Timing).variance / 61 +
          (⟨1, 0.1, 0.01, none⟩ : Timing).variance / 61) ^ 2 /
          (((⟨1, 0.15, 0.02, none⟩ : Timing).variance / 61) ^ 2 / (61 - 1) +
            ((⟨1, 0.1, 0.01, none⟩ : Timing).variance / 61) ^ 2 /
              (61 - 1)))).isSome = true ∧
      (invt 0.05 ((61 : ℝ) * 2 - 2)).isSome = true) :=
  ⟨by norm_num, by norm_num,
    invt_lookup_total_default ⟨1, 0.1, 0.01, none⟩ ⟨1, 0.15, 0.02, none⟩
      (by norm_num) (by norm_num)⟩

theorem equal_samples_negligible_witness :
    calc_timing_diff ⟨1, 0.1, 0.01, none⟩ ⟨1, 0.1, 0.01, none⟩ 61 0.05 =
        some ⟨0, true⟩ ∧
      (⟨0, true⟩ : TimingDiff).negligible = true :=
  ⟨calc_eval_equal,
    equal_samples_negligible ⟨1, 0.1, 0.01, none⟩ ⟨1, 0.1, 0.01, none⟩ 61 0.05
      ⟨0, true⟩ rfl rfl calc_eval_equal⟩

/-- C4: for every tabulated F-table row, an observed F strictly above the
strictest (alpha = 0.01) critical value yields the proxy 0.001, strictly
below the loosest (alpha = 0.1) critical value yields the proxy 0.2, and
an observed F exactly equal to a tabulated critical value yields exactly
the corresponding tabulated alpha. -/
theorem fcdf_row_boundary (k : ℤ) (t0 t1 t2 t3 f : ℝ)
    (h : F_TABLE.lookup k = some (t0, t1, t2, t3)) :
    (t0 < f → fcdf f k = some 0.001) ∧
    (f < t3 → fcdf f k = some 0.2) ∧
    fcdf t0 k = some 0.01 ∧ fcdf t1 k = some 0.025 ∧
    fcdf t2 k = some 0.05 ∧ fcdf t3 k = some 0.1 :=
  ⟨fun hf => fcdf_high h hf, fun hf => fcdf_low h hf,
    fcdf_at_first h, fcdf_at_second h, fcdf_at_third h, fcdf_at_fourth h⟩

theorem fcdf_row_boundary_witness :
    F_TABLE.lookup (4 : ℤ) = some (15.977, 9.6045, 6.3882, 4.10725) ∧
      (((15.977 : ℝ) < 20 → fcdf 20 4 = some 0.001) ∧
       ((20 : ℝ) < 4.10725 → fcdf 20 4 = some 0.2) ∧
       fcdf 15.977 4 = some 0.01 ∧ fcdf 9.6045 4 = some 0.025 ∧
       fcdf 6.3882 4 = some 0.05 ∧ fcdf 4.10725 4 = some 0.1) :=
  ⟨rfl, fcdf_row_boundary 4 15.977 9.6045 6.3882 4.10725 20 rfl⟩

/-- C3 counterexample: a degrees-of-freedom value inside the covered range
[4, 120] but not a tabulated key makes fcdf fail (a KeyError in the
source), rather than interpolate between bracketing rows: freedom 11,
i.e. sample size 12, yields no result. -/
theorem fcdf_freedom_eleven_fails : fcdf 2 11 = none := by
  have h : F_TABLE.lookup (11 : ℤ) = none := by rfl
  simp [fcdf, h]

/-- C3 amended: fcdf is defined only at the tabulated degrees-of-freedom
keys; for every freedom in [4, 120] that is not one of them the table
access fails and fcdf returns no result, for every observed F.  The
linear interpolation of fcdf is across the alpha columns of an exactly
matched row only, never across degrees-of-freedom rows. -/
theorem fcdf_untabulated_freedom_fails (f : ℝ) (k : ℤ)
    (h4 : 4 ≤ k) (h120 : k ≤ 120)
    (hk : k ∉ ([4, 5, 6, 7, 8, 9, 10, 12, 15, 20, 24, 30, 40, 60, 120] : List ℤ)) :
    fcdf f k = none := by
  simp only [List.mem_cons, not_or] at hk
  obtain ⟨n1, n2, n3, n4, n5, n6, n7, n8, n9, n10, n11, n12, n13, n14, n15, -⟩ := hk
  have h : F_TABLE.lookup k = none := by
    simp only [F_TABLE, List.lookup, beq_eq_false_iff_ne.mpr n1,
      beq_eq_false_iff_ne.mpr n2, beq_eq_false_iff_ne.mpr n3,
      beq_eq_false_iff_ne.mpr n4, beq_eq_false_iff_ne.mpr n5,
      beq_eq_false_iff_ne.mpr n6, beq_eq_false_iff_ne.mpr n7,
      beq_eq_false_iff_ne.mpr n8, beq_eq_false_iff_ne.mpr n9,
      beq_eq_false_iff_ne.mpr n10, beq_eq_false_iff_ne.mpr n11,
      beq_eq_false_iff_ne.mpr n12, beq_eq_false_iff_ne.mpr n13,
      beq_eq_false_iff_ne.mpr n14, beq_eq_false_iff_ne.mpr n15]
  simp [fcdf, h]

theorem fcdf_untabulated_freedom_fails_witness :
    (4 : ℤ) ≤ 11 ∧ (11 : ℤ) ≤ 120 ∧
      (11 : ℤ) ∉ ([4, 5, 6, 7, 8, 9, 10, 12, 15, 20, 24, 30, 40, 60, 120] : List ℤ) ∧
      fcdf 3 11 = none :=
  ⟨by decide, by decide, by decide,
    fcdf_untabulated_freedom_fails 3 11 (by decide) (by decide) (by decide)⟩

/-- C2: merge returns MIXED exactly on the conflicting pair
{REGRESSION, IMPROVEMENT}, and otherwise whichever argument ranks first in
the precedence order MIXED > REGRESSION > IMPROVEMENT > UNCHANGED >
NO_PREVIOUS_DATA, equal verdicts returning that verdict. -/
theorem merge_spec (v1 v2 : ResultType) :
    ResultType.merge v1 v2 =
      if (v1 = ResultType.REGRESSION ∧ v2 = ResultType.IMPROVEMENT) ∨
          (v1 = ResultType.IMPROVEMENT ∧ v2 = ResultType.REGRESSION) then
        ResultType.MIXED
      else if verdictRank v1 ≤ verdictRank v2 then v1 else v2 := by
  cases v1 <;> cases v2 <;> rfl

/-- C6: when the new sample's variance is zero, calc_timing_diff fails at
the variance-ratio division and produces no TimingDiff. -/
theorem new_variance_zero_fails (nw od : Timing) (n : ℤ) (a : ℝ)
    (h : nw.variance = 0) : calc_timing_diff nw od n a = none := by
  simp [calc_timing_diff, cdiv, h]

theorem new_variance_zero_fails_witness :
    (⟨1, 0, 0, none⟩ : Timing).variance = 0 ∧
      calc_timing_diff ⟨1, 0, 0, none⟩ ⟨2, 1, 1, none⟩ 61 0.05 = none :=
  ⟨rfl, new_variance_zero_fails ⟨1, 0, 0, none⟩ ⟨2, 1, 1, none⟩ 61 0.05 rfl⟩

/-- C9: when the old sample's variance is zero and the new one's is
positive, calc_timing_diff also fails with a division by zero: the
variance ratio is 0, the f < 1 branch is taken, and 1/f divides by zero. -/
theorem old_variance_zero_fails (nw od : Timing) (n : ℤ) (a : ℝ)
    (hov : od.variance = 0) (hnv : 0 < nw.variance) :
    calc_timing_diff nw od n a = none := by
  have h1 : cdiv od.variance nw.variance = some 0 := by
    rw [cdiv_of_ne (ne_of_gt hnv), hov, zero_div]
  rw [calc_timing_diff, h1]
  have h2 : ¬((0 : ℝ) ≥ 1) := by norm_num
  simp [h2, cdiv]

theorem old_variance_zero_fails_witness :
    (⟨2, 0, 0, none⟩ : Timing).variance = 0 ∧ (0 : ℝ) < (⟨1, 1, 1, none⟩ : Timing).variance ∧
      calc_timing_diff ⟨1, 1, 1, none⟩ ⟨2, 0, 0, none⟩ 61 0.05 = none :=
  ⟨rfl, by norm_num,
    old_variance_zero_fails ⟨1, 1, 1, none⟩ ⟨2, 0, 0, none⟩ 61 0.05 rfl (by norm_num)⟩

/-- C8: serializing a nested result mapping with write_output and
reloading it with load_results reconstructs every benchmark's timing
average, standard deviation and variance and its cost value exactly, with
the timing and queries diff fields None and the captured queries dropped. -/
theorem write_load_roundtrip (data : List (String × List (String × BenchmarkResult))) :
    load_results (write_output data) =
      data.map fun p => (p.1, p.2.map fun q =>
        (q.1, (⟨⟨q.2.queries.value, [], none⟩,
                ⟨q.2.timing.average, q.2.timing.stdev, q.2.timing.variance, none⟩⟩ :
              BenchmarkResult))) := by
  simp [load_results, write_output, List.map_map, Function.comp,
    BenchmarkResult.from_dict, BenchmarkResult.asdict, Timing.from_dict,
    Timing.asdict, Queries.from_dict, Queries.asdict]

section Helpers

lemma no_diff_result_type (r : BenchmarkResult) (hq : r.queries.diff = none)
    (ht : r.timing.diff = none) :
    r.result_type = ResultType.NO_PREVIOUS_DATA := by
  unfold BenchmarkResult.result_type
  rw [show r.queries.result_type = ResultType.NO_PREVIOUS_DATA by
      simp [Queries.result_type, hq],
    show r.timing.result_type = ResultType.NO_PREVIOUS_DATA by
      simp [Timing.result_type, ht]]
  rfl

lemma compare_case_spec (bb : List (String × BenchmarkResult)) (n : ℤ)
    (l out : List (String × BenchmarkResult)) (h : compare_case bb n l = some out) :
    out.map Prod.fst = l.map Prod.fst ∧
      List.Forall₂ (fun r s => bb.lookup r.1 = none → s = r) l out := by
  induction l generalizing out with
  | nil =>
    unfold compare_case at h
    rw [Option.some.injEq] at h
    subst h
    exact ⟨rfl, List.Forall₂.nil⟩
  | cons hd tl ih =>
    obtain ⟨name, res⟩ := hd
    simp only [compare_case] at h
    cases hlk : bb.lookup name with
    | none =>
      simp only [hlk] at h
      simp only [Option.bind_eq_bind, Option.some_bind] at h
      cases hrec : compare_case bb n tl with
      | none => rw [hrec] at h; simp at h
      | some tail =>
        rw [hrec] at h
        simp only [Option.bind_eq_bind, Option.some_bind, Option.some.injEq] at h
        subst h
        obtain ⟨ih1, ih2⟩ := ih tail hrec
        exact ⟨by simp [ih1], List.Forall₂.cons (fun _ => rfl) ih2⟩
    | some rb =>
      simp only [hlk] at h
      cases hcb : compare_bench res rb n with
      | none => rw [hcb] at h; simp at h
      | some r2 =>
        rw [hcb] at h
        simp only [Option.bind_eq_bind, Option.some_bind] at h
        cases hrec : compare_case bb n tl with
        | none => rw [hrec] at h; simp at h
        | some tail =>
          rw [hrec] at h
          simp only [Option.bind_eq_bind, Option.some_bind, Option.some.injEq] at h
          subst h
          obtain ⟨ih1, ih2⟩ := ih tail hrec
          refine ⟨by simp [ih1], List.Forall₂.cons ?_ ih2⟩
          intro hnone
          rw [hlk] at hnone
          cases hnone

lemma compare_results_spec (a b out : List (String × List (String × BenchmarkResult)))
    (n : ℤ) (h : compare_results a b n = some out) :
    out.map Prod.fst = a.map Prod.fst ∧
    List.Forall₂ (fun p q => b.lookup p.1 = none → q = p) a out ∧
    List.Forall₂ (fun p q => ∀ bb, b.lookup p.1 = some bb →
        q.2.map Prod.fst = p.2.map Prod.fst ∧
        List.Forall₂ (fun r s => bb.lookup r.1 = none → s = r) p.2 q.2) a out := by
  induction a generalizing out with
  | nil =>
    unfold compare_results at h
    rw [Option.some.injEq] at h
    subst h
    exact ⟨rfl, List.Forall₂.nil, List.Forall₂.nil⟩
  | cons hd tl ih =>
    obtain ⟨case, benchs⟩ := hd
    simp only [compare_results] at h
    cases hlk : b.lookup case with
    | none =>
      simp only [hlk] at h
      simp only [Option.bind_eq_bind, Option.some_bind] at h
      cases hrec : compare_results tl b n with
      | none => rw [hrec] at h; simp at h
      | some tail =>
        rw [hrec] at h
        simp only [Option.bind_eq_bind, Option.some_bind, Option.some.injEq] at h
        subst h
        obtain ⟨i1, i2, i3⟩ := ih tail hrec
        refine ⟨by simp [i1], List.Forall₂.cons (fun _ => rfl) i2,
          List.Forall₂.cons ?_ i3⟩
        intro bb hbb
        rw [hlk] at hbb
        cases hbb
    | some bbs =>
      simp only [hlk] at h
      cases hcc : compare_case bbs n benchs with
      | none => rw [hcc] at h; simp at h
      | some cb =>
        rw [hcc] at h
        simp only [Option.bind_eq_bind, Option.some_bind] at h
        cases hrec : compare_results tl b n with
        | none => rw [hrec] at h; simp at h
        | some tail =>
          rw [hrec] at h
          simp only [Option.bind_eq_bind, Option.some_bind, Option.some.injEq] at h
          subst h
          obtain ⟨i1, i2, i3⟩ := ih tail hrec
          obtain ⟨c1, c2⟩ := compare_case_spec bbs n benchs cb hcc
          refine ⟨by simp [i1], List.Forall₂.cons ?_ i2, List.Forall₂.cons ?_ i3⟩
          · intro hnone
            rw [hlk] at hnone
            cases hnone
          · intro bb hbb
            rw [hlk, Option.some.injEq] at hbb
            subst hbb
            exact ⟨c1, c2⟩

end Helpers

/-- C7: for every pair of nested result mappings and sample size, a
successful compare_results outputs exactly the cases of the new mapping in
order; a case absent from the old mapping is passed through with its
benchmark results unmodified, and within a shared case a benchmark absent
from the old case is passed through unmodified; and any result whose two
diff fields are None classifies as NO_PREVIOUS_DATA. -/
theorem compare_results_passthrough
    (a b out : List (String × List (String × BenchmarkResult))) (n : ℤ)
    (h : compare_results a b n = some out) :
    out.map Prod.fst = a.map Prod.fst ∧
    List.Forall₂ (fun p q => b.lookup p.1 = none → q = p) a out ∧
    List.Forall₂ (fun p q => ∀ bb, b.lookup p.1 = some bb →
        q.2.map Prod.fst = p.2.map Prod.fst ∧
        List.Forall₂ (fun r s => bb.lookup r.1 = none → s = r) p.2 q.2) a out ∧
    (∀ r : BenchmarkResult, r.queries.diff = none → r.timing.diff = none →
        r.result_type = ResultType.NO_PREVIOUS_DATA) := by
  obtain ⟨h1, h2, h3⟩ := compare_results_spec a b out n h
  exact ⟨h1, h2, h3, fun r hq ht => no_diff_result_type r hq ht⟩

/-- A concrete benchmark result with no comparison data attached. -/
noncomputable def sampleResult : BenchmarkResult :=
  ⟨⟨1, [], none⟩, ⟨1, 1, 1, none⟩⟩

theorem compare_results_passthrough_witness :
    compare_results [("c", [("m", sampleResult)])]
        ([] : List (String × List (String × BenchmarkResult))) 61 =
      some [("c", [("m", sampleResult)])] ∧
    (([("c", [("m", sampleResult)])] :
          List (String × List (String × BenchmarkResult))).map Prod.fst =
        [("c", [("m", sampleResult)])].map Prod.fst ∧
      List.Forall₂ (fun p q =>
          ([] : List (String × List (String × BenchmarkResult))).lookup p.1 = none →
            q = p)
        [("c", [("m", sampleResult)])] [("c", [("m", sampleResult)])] ∧
      List.Forall₂ (fun p q => ∀ bb,
          ([] : List (String × List (String × BenchmarkResult))).lookup p.1 = some bb →
            q.2.map Prod.fst = p.2.map Prod.fst ∧
            List.Forall₂ (fun r s => bb.lookup r.1 = none → s = r) p.2 q.2)
        [("c", [("m", sampleResult)])] [("c", [("m", sampleResult)])] ∧
      (∀ r : BenchmarkResult, r.queries.diff = none → r.timing.diff = none →
          r.result_type = ResultType.NO_PREVIOUS_DATA)) :=
  have hh : compare_results [("c", [("m", sampleResult)])]
      ([] : List (String × List (String × BenchmarkResult))) 61 =
        some [("c", [("m", sampleResult)])] := by
    simp [compare_results, List.lookup]
  ⟨hh, compare_results_passthrough [("c", [("m", sampleResult)])] [] 
    [("c", [("m", sampleResult)])] 61 hh⟩

end DjangoCriterion
